import Mathlib

/-!
# Verification of the portfolio analysis tool (`final_portfolio_project.py`)

Shallow embedding of the program's core: the metric functions
(`calculate_earnings`, `calculate_percentage_yield`, `calculate_yearly_return`),
the `Investment`/`Bond` holding model, the line parsers `read_stocks` /
`read_bonds`, the SQLite upsert step `setup_database`, the interactive filter
loop, and the control flow of `main`.

Modelling conventions:
* Python floats are modelled as `ℚ`; Python ints as `ℤ`.
* Python float division raises `ZeroDivisionError` on a zero divisor, so it is
  modelled by `pydiv : ℚ → ℚ → Option ℚ` (`none` = fault).
* `datetime.today()` is modelled by an explicit parameter `now : ℤ`, the
  current time in seconds since the proleptic-Gregorian day-0 origin used by
  `toOrdinal` (which matches CPython's `date.toordinal`).
* A file is modelled as `Option (List String)`: `none` means `open` raised
  (missing file), `some lines` is the list of lines.
* Fallible computations return `Option`/products with an error flag; a function
  that catches all exceptions internally is total here.
-/

/-! ## Python string primitives (over `List Char`, kernel-reducible) -/

/-- The whitespace characters stripped by Python's `str.strip()` / split by
`str.split()`: space, tab, newline, carriage return, vertical tab, form feed. -/
def pyIsSpace (c : Char) : Bool :=
  c == ' ' || c == '\t' || c == '\n' || c == '\r' ||
    c == Char.ofNat 11 || c == Char.ofNat 12

/-- Drop characters satisfying `p` from both ends of a character list. -/
def stripWhile (p : Char → Bool) (l : List Char) : List Char :=
  ((l.dropWhile p).reverse.dropWhile p).reverse

/-- Python `str.strip()` (no arguments): strip whitespace from both ends. -/
def pyStrip (s : String) : String := ⟨stripWhile pyIsSpace s.data⟩

/-- Python `str.strip('%')`: strip `%` characters from both ends. -/
def stripPct (s : String) : String := ⟨stripWhile (fun c => c == '%') s.data⟩

/-- Split a character list at every character satisfying `p` (Python
`str.split(sep)` semantics: `n` separators produce `n+1` pieces, empty pieces
included). -/
def splitIf (p : Char → Bool) : List Char → List (List Char)
  | [] => [[]]
  | c :: rest =>
    let r := splitIf p rest
    if p c then [] :: r
    else
      match r with
      | [] => [[c]]
      | h :: t => (c :: h) :: t

/-- Python `line.split(',')`, as a list of strings. -/
def splitCommaStr (s : String) : List String :=
  (splitIf (fun c => c == ',') s.data).map (fun l => (⟨l⟩ : String))

/-- Python `str.split()` (no arguments): split on whitespace runs, dropping
empty pieces. -/
def wordsOf (l : List Char) : List (List Char) :=
  (splitIf pyIsSpace l).filter (fun w => !w.isEmpty)

/-- Python `str.lower()` (ASCII, which is all this program feeds it). -/
def pyLower (s : String) : String := ⟨s.data.map Char.toLower⟩

/-- Python `str.upper()` (ASCII). -/
def pyUpper (s : String) : String := ⟨s.data.map Char.toUpper⟩

/-! ## Python numeric conversions -/

/-- Numeric value of a decimal digit character. -/
def digitVal (c : Char) : ℕ := c.toNat - 48

/-- Value of a string of decimal digits (`natOfDigits [] = 0`). -/
def natOfDigits (l : List Char) : ℕ :=
  l.foldl (fun a c => a * 10 + digitVal c) 0

/-- Parse a nonempty all-digit character list. -/
def parseNatDigits (l : List Char) : Option ℕ :=
  if !l.isEmpty && l.all Char.isDigit then some (natOfDigits l) else none

/-- Python `int(s)` for a string argument: optional surrounding whitespace,
optional sign, a nonempty digit run; anything else raises `ValueError`
(modelled as `none`). -/
def pyInt (s : String) : Option ℤ :=
  match stripWhile pyIsSpace s.data with
  | '+' :: rest => (parseNatDigits rest).map (fun n => (n : ℤ))
  | '-' :: rest => (parseNatDigits rest).map (fun n => -(n : ℤ))
  | l => (parseNatDigits l).map (fun n => (n : ℤ))

/-- Unsigned decimal literal: `digits`, `digits.digits`, `digits.` or
`.digits` (the forms appearing in this program's data). -/
def parseUnsignedDec (l : List Char) : Option ℚ :=
  match splitIf (fun c => c == '.') l with
  | [a] => (parseNatDigits a).map (fun n => (n : ℚ))
  | [a, b] =>
    if (!a.isEmpty || !b.isEmpty) && a.all Char.isDigit && b.all Char.isDigit then
      some ((natOfDigits a : ℚ) + (natOfDigits b : ℚ) / (10 ^ b.length))
    else none
  | _ => none

/-- Python `float(s)` for a string argument, on the decimal forms this
program's data files use: optional surrounding whitespace, optional sign,
decimal literal. Unparseable input raises `ValueError` (modelled as `none`). -/
def pyFloat (s : String) : Option ℚ :=
  match stripWhile pyIsSpace s.data with
  | '+' :: rest => parseUnsignedDec rest
  | '-' :: rest => (parseUnsignedDec rest).map (fun q => -q)
  | l => parseUnsignedDec l

/-- Python float division: `ZeroDivisionError` (= `none`) on a zero divisor. -/
def pydiv (a b : ℚ) : Option ℚ :=
  if b = 0 then none else some (a / b)

/-! ## Calendar arithmetic (CPython `datetime`) -/

/-- Gregorian leap year. -/
def isLeap (y : ℕ) : Bool :=
  (y % 4 == 0 && y % 100 != 0) || y % 400 == 0

/-- Days in month `m` of year `y`. -/
def daysInMonth (y m : ℕ) : ℕ :=
  if m == 2 then (if isLeap y then 29 else 28)
  else if m == 4 || m == 6 || m == 9 || m == 11 then 30
  else 31

/-- Days in all years before year `y` (proleptic Gregorian). -/
def daysBeforeYear (y : ℕ) : ℕ :=
  365 * (y - 1) + (y - 1) / 4 - (y - 1) / 100 + (y - 1) / 400

/-- Days in year `y` before month `m`. -/
def daysBeforeMonth (y m : ℕ) : ℕ :=
  (List.range (m - 1)).foldl (fun a i => a + daysInMonth y (i + 1)) 0

/-- CPython's `date(y, m, d).toordinal()`: day number with `date(1,1,1) = 1`. -/
def toOrdinal (y m d : ℕ) : ℕ :=
  daysBeforeYear y + daysBeforeMonth y m + d

/-- CPython's `datetime.strptime(s, "%m/%d/%Y")`: three `/`-separated fields;
month of 1–2 digits in 1..12, day of 1–2 digits in 1..31 and valid for the
month, year of exactly 4 digits. Any other input raises `ValueError`
(modelled as `none`). -/
def strptimeMDY (s : String) : Option (ℕ × ℕ × ℕ) :=
  match splitIf (fun c => c == '/') s.data with
  | [ms, ds, ys] =>
    if 1 ≤ ms.length ∧ ms.length ≤ 2 ∧ ms.all Char.isDigit ∧
        1 ≤ ds.length ∧ ds.length ≤ 2 ∧ ds.all Char.isDigit ∧
        ys.length = 4 ∧ ys.all Char.isDigit then
      let m := natOfDigits ms
      let d := natOfDigits ds
      let y := natOfDigits ys
      if 1 ≤ m ∧ m ≤ 12 ∧ 1 ≤ d ∧ d ≤ daysInMonth y m then
        some (m, d, y)
      else none
    else none
  | _ => none

/-! ## Metric functions (source lines 30–43) -/

/-- `calculate_earnings(current_price, purchase_price, shares)`:
`(current_price - purchase_price) * shares`. Total. -/
def calculate_earnings (current_price purchase_price : ℚ) (shares : ℤ) : ℚ :=
  (current_price - purchase_price) * (shares : ℚ)

/-- `calculate_percentage_yield(current_price, purchase_price)`:
`((current_price - purchase_price) / purchase_price) * 100`; the division
faults on `purchase_price = 0`. -/
def calculate_percentage_yield (current_price purchase_price : ℚ) : Option ℚ :=
  (pydiv (current_price - purchase_price) purchase_price).map (fun q => q * 100)

/-- `calculate_yearly_return(current_price, purchase_price, purchase_date_str)`;
`now` models `datetime.today()` in seconds. `(today - purchase_date).days` is
the floor of the elapsed seconds over 86400, exactly as `timedelta.days`. -/
def calculate_yearly_return (current_price purchase_price : ℚ)
    (purchase_date_str : String) (now : ℤ) : Option ℚ :=
  match strptimeMDY purchase_date_str with
  | none => none
  | some (m, d, y) =>
    let daysHeld : ℤ := Int.fdiv (now - 86400 * (toOrdinal y m d : ℤ)) 86400
    let yearsHeld : ℚ := (daysHeld : ℚ) / (1461 / 4)
    if yearsHeld ≤ 0 then some 0
    else
      (pydiv (current_price - purchase_price) purchase_price).bind fun tr =>
        (pydiv tr yearsHeld).map (fun r => r * 100)

/-! ## Holding model (source lines 46–78) -/

/-- `class Investment` (source lines 53–69): field values after the
constructor's coercions (`int(quantity)`, `float(purchase_price)`,
`float(current_price)`); the purchase date is stored as the raw string,
uninspected. -/
structure Investment where
  purchase_id : String
  symbol : String
  quantity : ℤ
  purchase_price : ℚ
  current_price : ℚ
  purchase_date : String
deriving DecidableEq

/-- `Investment.earnings` (source line 62). -/
def Investment.earnings (i : Investment) : ℚ :=
  calculate_earnings i.current_price i.purchase_price i.quantity

/-- `Investment.percent_yield` (source line 65). -/
def Investment.percent_yield (i : Investment) : Option ℚ :=
  calculate_percentage_yield i.current_price i.purchase_price

/-- `Investment.yearly_return` (source line 68); `now` models
`datetime.today()`. -/
def Investment.yearly_return (i : Investment) (now : ℤ) : Option ℚ :=
  calculate_yearly_return i.current_price i.purchase_price i.purchase_date now

/-- `class Bond(Investment)` (source lines 71–78): the base fields plus
`coupon = float(coupon)` and `yield_rate = float(yield_rate.strip('%')) / 100`. -/
structure Bond extends Investment where
  coupon : ℚ
  yield_rate : ℚ
deriving DecidableEq

/-- `Bond.earnings` (source lines 77–78): overrides the base with
`super().earnings() + (self.quantity * self.purchase_price * self.yield_rate)`. -/
def Bond.earnings (b : Bond) : ℚ :=
  Investment.earnings b.toInvestment +
    (b.quantity : ℚ) * b.purchase_price * b.yield_rate

/-- `Bond.percent_yield`: inherited unchanged from `Investment`. -/
def Bond.percent_yield (b : Bond) : Option ℚ :=
  Investment.percent_yield b.toInvestment

/-- `Bond.yearly_return`: inherited unchanged from `Investment`. -/
def Bond.yearly_return (b : Bond) (now : ℤ) : Option ℚ :=
  Investment.yearly_return b.toInvestment now

/-- The yield-rate coercion in `Bond.__init__` (source line 75):
`float(yield_rate.strip('%')) / 100`. The division by 100 is unconditional. -/
def parseYieldRate (s : String) : Option ℚ :=
  (pyFloat (stripPct s)).map (fun q => q / 100)

/-- `Investment(...)` called with string fields, as the stock parser does:
the numeric coercions can raise `ValueError` (= `none`); the date string is
stored without validation. -/
def mkInvestment (pid symbol qty pprice cprice pdate : String) :
    Option Investment :=
  match pyInt qty, pyFloat pprice, pyFloat cprice with
  | some q, some pp, some cp => some ⟨pid, symbol, q, pp, cp, pdate⟩
  | _, _, _ => none

/-- `Bond(...)` called with string fields, as the bond parser does. -/
def mkBond (pid symbol qty pprice cprice coupon yld pdate : String) :
    Option Bond :=
  match pyInt qty, pyFloat pprice, pyFloat cprice, pyFloat coupon,
      parseYieldRate yld with
  | some q, some pp, some cp, some cu, some yr =>
    some ⟨⟨pid, symbol, q, pp, cp, pdate⟩, cu, yr⟩
  | _, _, _, _, _ => none

/-! ## File parsers (source lines 81–107) -/

/-- One iteration of the `read_stocks` loop body for line number `idx`:
`line.strip().split(',')` must unpack into exactly 5 fields, then
`Investment(f"S{idx}", ...)` must not raise. -/
def parseStockLine (idx : ℕ) (line : String) : Option Investment :=
  match splitCommaStr (pyStrip line) with
  | [symbol, qty, pPrice, cPrice, pDate] =>
    mkInvestment ("S" ++ toString idx) symbol qty pPrice cPrice pDate
  | _ => none

/-- The 7-field bond record constructor for line number `idx`. -/
def parseBondLine (idx : ℕ) (parts : List String) : Option Bond :=
  match parts with
  | [symbol, qty, pPrice, cPrice, coupon, yld, pDate] =>
    mkBond ("B" ++ toString idx) symbol qty pPrice cPrice coupon yld pDate
  | _ => none

/-- The `read_stocks` loop from line number `idx` on. The `Bool` is the error
flag: `true` means the surrounding `except` clause ran (a diagnostic was
printed) and the returned list stops at the failing line. -/
def readStocksAux : ℕ → List String → List Investment × Bool
  | _, [] => ([], false)
  | idx, line :: rest =>
    match parseStockLine idx line with
    | some inv =>
      let r := readStocksAux (idx + 1) rest
      (inv :: r.1, r.2)
    | none => ([], true)

/-- `read_stocks(filename)` (source lines 81–92): `none` models a file that
fails to open; the function itself never propagates an exception. -/
def read_stocks : Option (List String) → List Investment × Bool
  | none => ([], true)
  | some lines => readStocksAux 1 lines

/-- The `read_bonds` loop from line number `idx` on: a line whose
comma-separated field count is not 7 is silently skipped (`if len(parts) == 7`
has no `else`); a 7-field line whose `Bond(...)` constructor raises aborts the
whole file. -/
def readBondsAux : ℕ → List String → List Bond × Bool
  | _, [] => ([], false)
  | idx, line :: rest =>
    let parts := splitCommaStr (pyStrip line)
    if parts.length = 7 then
      match parseBondLine idx parts with
      | some b =>
        let r := readBondsAux (idx + 1) rest
        (b :: r.1, r.2)
      | none => ([], true)
    else readBondsAux (idx + 1) rest

/-- `read_bonds(filename)` (source lines 94–107). -/
def read_bonds : Option (List String) → List Bond × Bool
  | none => ([], true)
  | some lines => readBondsAux 1 lines

/-! ## SQLite persistence (source lines 110–141)

A table is an association list keyed by `purchase_id`; `INSERT OR REPLACE`
deletes the row carrying the same primary key (if any) and inserts the new
row. `CREATE TABLE IF NOT EXISTS` keeps whatever rows a table already holds. -/

/-- A relational table keyed by the TEXT primary key `purchase_id`. -/
abbrev Table (α : Type) := List (String × α)

/-- Non-key columns of the `stocks` table:
`symbol, quantity, purchase_price, current_price, purchase_date`. -/
abbrev StockRow := String × ℤ × ℚ × ℚ × String

/-- Non-key columns of the `bonds` table: `symbol, quantity, purchase_price,
current_price, coupon, yield_rate, purchase_date`. -/
abbrev BondRow := String × ℤ × ℚ × ℚ × ℚ × ℚ × String

/-- Delete every row whose primary key is `k`. -/
def eraseKey {α : Type} (t : Table α) (k : String) : Table α :=
  t.filter (fun p => decide (p.1 ≠ k))

/-- `INSERT OR REPLACE`: delete any row keyed `k`, then insert `(k, v)`. -/
def upsertRow {α : Type} (t : Table α) (k : String) (v : α) : Table α :=
  eraseKey t k ++ [(k, v)]

/-- Run a sequence of `INSERT OR REPLACE` statements in order. -/
def applyUpserts {α : Type} (t : Table α) (rows : List (String × α)) : Table α :=
  rows.foldl (fun acc kv => upsertRow acc kv.1 kv.2) t

/-- The row written for a stock by `setup_database` (source lines 128–132). -/
def stockKV (i : Investment) : String × StockRow :=
  (i.purchase_id, (i.symbol, i.quantity, i.purchase_price, i.current_price,
    i.purchase_date))

/-- The row written for a bond by `setup_database` (source lines 134–139). -/
def bondKV (b : Bond) : String × BondRow :=
  (b.purchase_id, (b.symbol, b.quantity, b.purchase_price, b.current_price,
    b.coupon, b.yield_rate, b.purchase_date))

/-- The durable store: the rows of the two tables. -/
structure DBState where
  stocks : Table StockRow
  bonds : Table BondRow

/-- `setup_database(db_path, stocks, bonds)` (source lines 110–141): ensure
the two tables exist (existing rows kept), then upsert every given holding. -/
def setup_database (db : DBState) (stocks : List Investment)
    (bonds : List Bond) : DBState :=
  { stocks := applyUpserts db.stocks (stocks.map stockKV)
    bonds := applyUpserts db.bonds (bonds.map bondKV) }

/-- The hardcoded bond appended in `main` (source line 242):
`Bond("B999","GT2:GOV",200,100.02,100.05,1.38,"1.35%","8/1/2017")`;
`float(100.02) = 5001/50`, `float(100.05) = 2001/20`, `float(1.38) = 69/50`,
and `float("1.35%".strip('%'))/100 = 27/2000`. -/
def hardcodedBond : Bond :=
  ⟨⟨"B999", "GT2:GOV", 200, 5001 / 50, 2001 / 20, "8/1/2017"⟩, 69 / 50, 27 / 2000⟩

/-- The read-and-persist phase of `main` (source lines 239–245): parse both
files, append the hardcoded bond, and run `setup_database` against the store
found at `db_file` (whose prior contents are `db`). -/
def runPersist (db : DBState) (stockFile bondFile : Option (List String)) :
    DBState :=
  setup_database db (read_stocks stockFile).1
    ((read_bonds bondFile).1 ++ [hardcodedBond])

/-! ## Interactive filter loop (source lines 175–202) -/

/-- `norm(ch) = ch.strip().lower().split()[0]` (source line 176). On input
whose stripped text has no words, `split()` returns `[]` and the `[0]` index
raises `IndexError` — modelled as `none`. -/
def pyNormWord (s : String) : Option String :=
  match wordsOf (pyLower (pyStrip s)).data with
  | [] => none
  | w :: _ => some (⟨w⟩ : String)

/-- How the interactive filter loop ends: `exited` via the explicit
exit/quit branch's `break`, or `crashed` by an uncaught exception
(`IndexError` from `norm`, `EOFError` from `input()`, or a metric fault
while printing). -/
inductive FilterResult where
  | exited : FilterResult
  | crashed : FilterResult
deriving DecidableEq

/-- `interactive_portfolio_filter(stocks)` (source lines 175–202), driven by
the list of lines `stdin` will yield; `now` models `datetime.today()` for the
`yearly_return` calls made by the sort and lookup branches. Branches `1`/`2`
print earnings (total); branch `3` evaluates `yearly_return` on every stock
(a date-parse fault there is uncaught); branch `4` consumes one further input
line as the symbol and evaluates `yearly_return` on the first match; an input
with no words crashes in `norm`; exhausted input models `input()` raising
`EOFError`. The single Python loop body is written out for the two shapes of
the remaining input — exactly one line left, or at least two — because the
lookup branch performs a second `input()` call: with one line left that
second call hits end of input and crashes. -/
def interactive_portfolio_filter (stocks : List Investment) (now : ℤ) :
    List String → FilterResult
  | [] => .crashed
  | [line] =>
    match pyNormWord line with
    | none => .crashed
    | some choice =>
      if choice = "1" ∨ choice = "positive" then
        interactive_portfolio_filter stocks now []
      else if choice = "2" ∨ choice = "negative" then
        interactive_portfolio_filter stocks now []
      else if choice = "3" ∨ choice = "sort" then
        if stocks.all (fun s => (s.yearly_return now).isSome) then
          interactive_portfolio_filter stocks now []
        else .crashed
      else if choice = "4" ∨ choice = "lookup" then .crashed
      else if choice = "5" ∨ choice = "exit" ∨ choice = "quit" then .exited
      else interactive_portfolio_filter stocks now []
  | line :: symLine :: rest2 =>
    match pyNormWord line with
    | none => .crashed
    | some choice =>
      if choice = "1" ∨ choice = "positive" then
        interactive_portfolio_filter stocks now (symLine :: rest2)
      else if choice = "2" ∨ choice = "negative" then
        interactive_portfolio_filter stocks now (symLine :: rest2)
      else if choice = "3" ∨ choice = "sort" then
        if stocks.all (fun s => (s.yearly_return now).isSome) then
          interactive_portfolio_filter stocks now (symLine :: rest2)
        else .crashed
      else if choice = "4" ∨ choice = "lookup" then
        match stocks.filter (fun s => s.symbol == pyUpper symLine) with
        | [] => interactive_portfolio_filter stocks now rest2
        | s :: _ =>
          if (s.yearly_return now).isSome then
            interactive_portfolio_filter stocks now rest2
          else .crashed
      else if choice = "5" ∨ choice = "exit" ∨ choice = "quit" then .exited
      else interactive_portfolio_filter stocks now (symLine :: rest2)

/-! ## `main` (source lines 231–258)

`write_report`, `export_csv` and `visualize_json` wrap their entire bodies in
`try/except Exception` (source lines 145–161, 165–172, 206–228), so they
cannot propagate; `interactive_portfolio_filter` has no handler, so it is the
only step between `setup_database` and `conn.close()` that can raise. `main`
has no `try`/`finally` and no context manager around the connection: the
trailing `conn.close()` (source line 258) runs only if control reaches it. -/

/-- The run of `main` on the given store contents, input files and stdin
lines. Returns the store state after the committed upsert and the number of
times `conn.close()` executed during the run. -/
def mainRun (db : DBState) (stockFile bondFile : Option (List String))
    (inputs : List String) (now : ℤ) : DBState × ℕ :=
  let stocks := (read_stocks stockFile).1
  let bonds := (read_bonds bondFile).1 ++ [hardcodedBond]
  let db2 := setup_database db stocks bonds
  match interactive_portfolio_filter stocks now inputs with
  | .exited => (db2, 1)
  | .crashed => (db2, 0)

/-! ## Concrete instances used by the claim theorems -/

/-- Concrete instance for the C10 witness: the investment built from a date
string that is not in MM/DD/YYYY format. -/
def badDateInv : Investment := ⟨"S1", "IBM", 10, 50, 60, "not-a-date"⟩

/-- First of the two same-key stocks used for the C4 duplicate-id facts. -/
def dupA : Investment := ⟨"S1", "IBM", 10, 10, 15, "1/2/2020"⟩

/-- Second of the two same-key stocks: same purchase id, different
current price. -/
def dupB : Investment := ⟨"S1", "IBM", 10, 10, 99, "1/2/2020"⟩

/-- A row present in the store from an earlier run, keyed S9, which the
current run's inputs do not mention. -/
def staleRow : StockRow := ("XYZ", 1, 1, 1, "1/2/2020")

/-! ## Association-table lemmas -/

/-- The primary keys of a row sequence, in order. -/
def keysOf {α : Type} (rows : List (String × α)) : List String :=
  rows.map Prod.fst

/-- Delete every row whose primary key occurs in `ks`. -/
def dropKeys {α : Type} (t : Table α) (ks : List String) : Table α :=
  t.filter (fun p => decide (¬ p.1 ∈ ks))

theorem decide_not_mem_cons (a k : String) (K : List String) :
    decide (¬ a ∈ k :: K) = (decide (a ≠ k) && decide (¬ a ∈ K)) := by
  by_cases h1 : a = k <;> by_cases h2 : a ∈ K <;> simp [h1, h2]

theorem dropKeys_eraseKey {α : Type} (t : Table α) (k : String)
    (K : List String) :
    dropKeys (eraseKey t k) K = t.filter (fun p => decide (¬ p.1 ∈ k :: K)) := by
  unfold dropKeys eraseKey
  rw [List.filter_filter]
  apply List.filter_congr
  intro p _
  rw [decide_not_mem_cons, Bool.and_comm]

theorem applyUpserts_characterization {α : Type} (rows : List (String × α)) :
    ∀ t : Table α,
      applyUpserts t rows = dropKeys t (keysOf rows) ++ applyUpserts [] rows := by
  induction rows with
  | nil =>
    intro t
    simp [applyUpserts, dropKeys, keysOf]
  | cons kv rows ih =>
    obtain ⟨k, v⟩ := kv
    intro t
    have step : ∀ t' : Table α,
        applyUpserts t' ((k, v) :: rows) = applyUpserts (upsertRow t' k v) rows :=
      fun _ => rfl
    rw [step t, ih (upsertRow t k v), step ([] : Table α),
      show upsertRow ([] : Table α) k v = [(k, v)] from rfl, ih [(k, v)]]
    show dropKeys (upsertRow t k v) (keysOf rows) ++ applyUpserts [] rows =
      dropKeys t (k :: keysOf rows) ++
        (dropKeys [(k, v)] (keysOf rows) ++ applyUpserts [] rows)
    rw [show upsertRow t k v = eraseKey t k ++ [(k, v)] from rfl]
    unfold dropKeys
    rw [List.filter_append, ← List.append_assoc]
    have : (eraseKey t k).filter (fun p => decide (¬ p.1 ∈ keysOf rows)) =
        t.filter (fun p => decide (¬ p.1 ∈ k :: keysOf rows)) :=
      dropKeys_eraseKey t k (keysOf rows)
    rw [this]

theorem mem_applyUpserts {α : Type} (rows : List (String × α)) :
    ∀ (t : Table α) (x : String × α),
      x ∈ applyUpserts t rows → x ∈ t ∨ x.1 ∈ keysOf rows := by
  induction rows with
  | nil => intro t x h; exact Or.inl h
  | cons kv rows ih =>
    obtain ⟨k, v⟩ := kv
    intro t x h
    rcases ih (upsertRow t k v) x h with h' | h'
    · rcases List.mem_append.mp h' with h'' | h''
      · exact Or.inl (List.mem_of_mem_filter h'')
      · right
        have hx : x = (k, v) := by simpa using h''
        simp [keysOf, hx]
    · right
      simp only [keysOf, List.map_cons, List.mem_cons]
      exact Or.inr h'

theorem dropKeys_applyUpserts_nil {α : Type} (rows : List (String × α)) :
    dropKeys (applyUpserts ([] : Table α) rows) (keysOf rows) = [] := by
  unfold dropKeys
  rw [List.filter_eq_nil_iff]
  intro x hx
  rcases mem_applyUpserts rows [] x hx with h | h
  · simp at h
  · simp [h]

theorem applyUpserts_idem {α : Type} (t : Table α) (rows : List (String × α)) :
    applyUpserts (applyUpserts t rows) rows = applyUpserts t rows := by
  rw [applyUpserts_characterization rows (applyUpserts t rows),
    applyUpserts_characterization rows t]
  congr 1
  unfold dropKeys
  rw [List.filter_append, List.filter_filter]
  have h1 : (fun (a : String × α) =>
      decide (¬ a.1 ∈ keysOf rows) && decide (¬ a.1 ∈ keysOf rows)) =
      fun (a : String × α) => decide (¬ a.1 ∈ keysOf rows) :=
    funext fun a => Bool.and_self _
  rw [h1]
  have h2 := dropKeys_applyUpserts_nil rows
  unfold dropKeys at h2
  rw [h2, List.append_nil]

/-! ## Claim theorems -/

/-- C1: For every Bond, `earnings()` equals the base capital-gain earnings
`(current_price - purchase_price) * quantity` plus the income term
`quantity * purchase_price * yield_rate`; `Bond.percent_yield()` and
`Bond.yearly_return()` compute exactly the same value as the base
`Investment` implementation on the same price/date fields, and neither
depends on the coupon or yield rate; `earnings()` differs from the base
value exactly when the income term is nonzero, so it is the only metric
that distinguishes the two holding kinds. -/
theorem bond_overrides_only_earnings (b : Bond) (now : ℤ) :
    Bond.earnings b =
      calculate_earnings b.current_price b.purchase_price b.quantity +
        (b.quantity : ℚ) * b.purchase_price * b.yield_rate ∧
    Bond.percent_yield b = Investment.percent_yield b.toInvestment ∧
    Bond.yearly_return b now = Investment.yearly_return b.toInvestment now ∧
    (∀ c₁ y₁ c₂ y₂ : ℚ,
      Bond.percent_yield ⟨b.toInvestment, c₁, y₁⟩ =
        Bond.percent_yield ⟨b.toInvestment, c₂, y₂⟩) ∧
    (∀ c₁ y₁ c₂ y₂ : ℚ,
      Bond.yearly_return ⟨b.toInvestment, c₁, y₁⟩ now =
        Bond.yearly_return ⟨b.toInvestment, c₂, y₂⟩ now) ∧
    (Bond.earnings b ≠ Investment.earnings b.toInvestment ↔
      (b.quantity : ℚ) * b.purchase_price * b.yield_rate ≠ 0) := by
  refine ⟨rfl, rfl, rfl, fun _ _ _ _ => rfl, fun _ _ _ _ => rfl, ?_⟩
  simp only [Bond.earnings, ne_eq, add_right_eq_self]

/-- C5: For all current and purchase prices with purchase price ≠ 0,
`calculate_percentage_yield` returns
`(current_price - purchase_price) / purchase_price * 100`; when the purchase
price is 0 the division raises `ZeroDivisionError` at the call site
(modelled as `none`) rather than returning a coerced value. -/
theorem percent_yield_division_spec (c p : ℚ) :
    (p ≠ 0 → calculate_percentage_yield c p = some ((c - p) / p * 100)) ∧
    (p = 0 → calculate_percentage_yield c p = none) := by
  constructor
  · intro h
    simp [calculate_percentage_yield, pydiv, h]
  · intro h
    simp [calculate_percentage_yield, pydiv, h]

theorem percent_yield_division_spec_witness :
    calculate_percentage_yield 3 2 = some ((3 - 2) / 2 * 100) ∧
    calculate_percentage_yield 3 0 = none :=
  ⟨(percent_yield_division_spec 3 2).1 (by norm_num),
   (percent_yield_division_spec 3 0).2 rfl⟩

/-- C10: `Investment` construction performs no validation of the
purchase-date field: for every date string `d` the constructor succeeds and
stores `d` verbatim, `earnings()` and `percent_yield()` return normally on
the resulting instance, and only `yearly_return()` faults (via
`strptime`) when `d` is not a valid `MM/DD/YYYY` date. -/
theorem date_unvalidated_until_yearly_return (d : String) (now : ℤ) :
    mkInvestment "S1" "IBM" "10" "50" "60" d =
      some ⟨"S1", "IBM", 10, 50, 60, d⟩ ∧
    (∀ inv, mkInvestment "S1" "IBM" "10" "50" "60" d = some inv →
      inv.purchase_date = d ∧
      inv.earnings = 100 ∧
      inv.percent_yield = some 20 ∧
      (strptimeMDY d = none → inv.yearly_return now = none)) := by
  refine ⟨rfl, ?_⟩
  intro inv h
  rw [show mkInvestment "S1" "IBM" "10" "50" "60" d =
    some ⟨"S1", "IBM", 10, 50, 60, d⟩ from rfl] at h
  injection h with h
  subst h
  refine ⟨rfl, ?_, ?_, ?_⟩
  · norm_num [Investment.earnings, calculate_earnings]
  · norm_num [Investment.percent_yield, calculate_percentage_yield, pydiv]
  · intro hd
    simp [Investment.yearly_return, calculate_yearly_return, hd]


theorem date_unvalidated_until_yearly_return_witness :
    badDateInv.earnings = 100 ∧ badDateInv.percent_yield = some 20 ∧
    badDateInv.yearly_return 0 = none := by
  have h := (date_unvalidated_until_yearly_return "not-a-date" 0).2 badDateInv
    (date_unvalidated_until_yearly_return "not-a-date" 0).1
  exact ⟨h.2.1, h.2.2.1, h.2.2.2 (by decide)⟩

/-- C6: `Bond` construction parses the yield-rate string by stripping `%`
and dividing the parsed number by 100; the division is unconditional, so a
bare number with no percent sign is also divided by 100, and an
already-fractional input is divided a second time:
`"1.35%" ↦ 0.0135`, `"1.35" ↦ 0.0135`, `"0.0135" ↦ 0.000135`. -/
theorem yield_rate_divides_unconditionally :
    (∀ (s : String) (q : ℚ), pyFloat (stripPct s) = some q →
      parseYieldRate s = some (q / 100)) ∧
    (∀ pid sym qty pp cp cpn yld pd b,
      mkBond pid sym qty pp cp cpn yld pd = some b →
      parseYieldRate yld = some b.yield_rate) ∧
    parseYieldRate "1.35%" = some (27 / 2000) ∧
    parseYieldRate "1.35" = some (27 / 2000) ∧
    parseYieldRate "0.0135" = some (27 / 200000) := by
  refine ⟨?_, ?_, ?_, ?_, ?_⟩
  · intro s q h
    simp [parseYieldRate, h]
  · intro pid sym qty pp cp cpn yld pd b h
    unfold mkBond at h
    split at h
    · rename_i heq
      injection h with h
      subst h
      exact heq
    · exact Option.noConfusion h
  · rw [show parseYieldRate "1.35%" =
      some ((((1 : ℕ) : ℚ) + ((35 : ℕ) : ℚ) / 10 ^ (2 : ℕ)) / 100) from rfl]
    norm_num
  · rw [show parseYieldRate "1.35" =
      some ((((1 : ℕ) : ℚ) + ((35 : ℕ) : ℚ) / 10 ^ (2 : ℕ)) / 100) from rfl]
    norm_num
  · rw [show parseYieldRate "0.0135" =
      some ((((0 : ℕ) : ℚ) + ((135 : ℕ) : ℚ) / 10 ^ (4 : ℕ)) / 100) from rfl]
    norm_num

theorem yield_rate_divides_unconditionally_witness :
    pyFloat (stripPct "7%") = some (7 : ℚ) ∧
    parseYieldRate "7%" = some ((7 : ℚ) / 100) :=
  ⟨rfl, yield_rate_divides_unconditionally.1 "7%" (7 : ℚ) rfl⟩

/-- C2: `calculate_yearly_return` computes years held as the day-count
between the purchase date and the evaluation time divided by 365.25; whenever
years held is ≤ 0 — in particular for every purchase date strictly in the
future relative to `now` — it returns exactly 0.0 without dividing, and
otherwise it returns
`((current_price - purchase_price) / purchase_price) / years_held * 100`. -/
theorem yearly_return_guard_and_formula (c p : ℚ) (dateStr : String)
    (m d y : ℕ) (now : ℤ)
    (hp : strptimeMDY dateStr = some (m, d, y)) :
    (now < 86400 * (toOrdinal y m d : ℤ) →
      calculate_yearly_return c p dateStr now = some 0) ∧
    ((((Int.fdiv (now - 86400 * (toOrdinal y m d : ℤ)) 86400 : ℤ) : ℚ) /
        (1461 / 4)) ≤ 0 →
      calculate_yearly_return c p dateStr now = some 0) ∧
    (0 < (((Int.fdiv (now - 86400 * (toOrdinal y m d : ℤ)) 86400 : ℤ) : ℚ) /
        (1461 / 4)) →
      p ≠ 0 →
      calculate_yearly_return c p dateStr now =
        some ((c - p) / p /
          (((Int.fdiv (now - 86400 * (toOrdinal y m d : ℤ)) 86400 : ℤ) : ℚ) /
            (1461 / 4)) * 100)) := by
  have hguard : ∀ hle : (((Int.fdiv (now - 86400 * (toOrdinal y m d : ℤ))
      86400 : ℤ) : ℚ) / (1461 / 4)) ≤ 0,
      calculate_yearly_return c p dateStr now = some 0 := by
    intro hle
    simp only [calculate_yearly_return, hp]
    rw [if_pos hle]
  refine ⟨?_, hguard, ?_⟩
  · intro hfut
    apply hguard
    have h1 : now - 86400 * (toOrdinal y m d : ℤ) < 0 := by omega
    have h2 : Int.fdiv (now - 86400 * (toOrdinal y m d : ℤ)) 86400 < 0 := by
      rw [Int.fdiv_eq_ediv _ (by norm_num)]
      exact Int.ediv_neg' h1 (by norm_num)
    have h3 : ((Int.fdiv (now - 86400 * (toOrdinal y m d : ℤ)) 86400 : ℤ) : ℚ) ≤ 0 := by
      exact_mod_cast h2.le
    exact div_nonpos_of_nonpos_of_nonneg h3 (by norm_num)
  · intro hpos hp0
    simp only [calculate_yearly_return, hp]
    rw [if_neg (not_le.mpr hpos)]
    simp [pydiv, hp0, hpos.ne']

theorem yearly_return_guard_and_formula_witness :
    strptimeMDY "8/1/2017" = some (8, 1, 2017) ∧
    (0 : ℤ) < 86400 * (toOrdinal 2017 8 1 : ℤ) ∧
    calculate_yearly_return 2 1 "8/1/2017" 0 = some 0 :=
  ⟨by decide, by decide,
   (yearly_return_guard_and_formula 2 1 "8/1/2017" 8 1 2017 0 (by decide)).1
     (by decide)⟩


/-- C4: The persistence step upserts by primary key: an upsert of key `k`
leaves exactly one row for `k`, carrying the new value; running the
persistence step twice with identical inputs leaves each table's rows (hence
row count and row values) unchanged; persisting id S1 twice with different
current prices — in one run or across two runs — leaves exactly one S1 row
carrying the second current price, with no error. -/
theorem setup_database_upsert_semantics :
    (∀ (db : DBState) (stocks : List Investment) (bonds : List Bond),
      setup_database (setup_database db stocks bonds) stocks bonds =
        setup_database db stocks bonds) ∧
    (∀ (t : Table StockRow) (k : String) (v : StockRow),
      (upsertRow t k v).filter (fun p => decide (p.1 = k)) = [(k, v)]) ∧
    (setup_database ⟨[], []⟩ [dupA, dupB] []).stocks =
      [("S1", ("IBM", 10, 10, 99, "1/2/2020"))] ∧
    (setup_database (setup_database ⟨[], []⟩ [dupA] []) [dupB] []).stocks =
      [("S1", ("IBM", 10, 10, 99, "1/2/2020"))] := by
  refine ⟨?_, ?_, by decide, by decide⟩
  · intro db stocks bonds
    simp [setup_database, applyUpserts_idem]
  · intro t k v
    simp only [upsertRow, eraseKey, List.filter_append, List.filter_filter]
    have h1 : (fun p : String × StockRow =>
        decide (p.1 = k) && decide (p.1 ≠ k)) = fun _ => false := by
      funext p
      by_cases h : p.1 = k <;> simp [h]
    rw [h1]
    simp


/-- C7 counterexample: with the same (empty) input files, two different prior
store states yield different post-run stocks tables, and the stale S9 row
survives the run untouched — the store's holding set is not a function of the
run's inputs plus the hardcoded bond, and rows from earlier runs' inputs do
survive. -/
theorem store_state_keeps_stale_rows :
    ("S9", staleRow) ∈
      (runPersist ⟨[("S9", staleRow)], []⟩ (some []) (some [])).stocks ∧
    (runPersist ⟨[("S9", staleRow)], []⟩ (some []) (some [])).stocks ≠
      (runPersist ⟨[], []⟩ (some []) (some [])).stocks := by
  exact ⟨by decide, by decide⟩

/-- C7 amended: after a run's upsert step, each table equals the prior rows
whose purchase ids the run does not re-supply, followed by the run's own
rows deduplicated last-wins per purchase id; so the post-state is a
deterministic function of the run's input files (plus the hardcoded bond)
and the prior store state, and prior rows with ids not re-supplied
survive. -/
theorem store_last_run_wins_per_key (db : DBState)
    (sf bf : Option (List String)) :
    (runPersist db sf bf).stocks =
      dropKeys db.stocks (keysOf ((read_stocks sf).1.map stockKV)) ++
        applyUpserts [] ((read_stocks sf).1.map stockKV) ∧
    (runPersist db sf bf).bonds =
      dropKeys db.bonds
          (keysOf (((read_bonds bf).1 ++ [hardcodedBond]).map bondKV)) ++
        applyUpserts [] (((read_bonds bf).1 ++ [hardcodedBond]).map bondKV) :=
  ⟨applyUpserts_characterization _ _, applyUpserts_characterization _ _⟩

/-- The stock-parser loop on `pre ++ bad :: rest`, when every line of `pre`
parses and `bad` does not: it returns exactly the holdings parsed from `pre`
(one per line), flags the error, and drops `bad` and everything after it. -/
theorem readStocksAux_prefix (pre : List String) :
    ∀ (idx : ℕ) (bad : String) (rest : List String),
      (∀ i (h : i < pre.length),
        (parseStockLine (idx + i) (pre.get ⟨i, h⟩)).isSome = true) →
      parseStockLine (idx + pre.length) bad = none →
      readStocksAux idx (pre ++ bad :: rest) = ((readStocksAux idx pre).1, true) ∧
      (readStocksAux idx pre).2 = false ∧
      (readStocksAux idx pre).1.length = pre.length := by
  induction pre with
  | nil =>
    intro idx bad rest hpre hbad
    rw [List.length_nil, Nat.add_zero] at hbad
    rw [List.nil_append]
    refine ⟨?_, rfl, rfl⟩
    simp [readStocksAux, hbad]
  | cons l pre ih =>
    intro idx bad rest hpre hbad
    have h0 := hpre 0 (by simp)
    rw [Option.isSome_iff_exists] at h0
    obtain ⟨inv, hinv⟩ := h0
    have hinv' : parseStockLine idx l = some inv := by
      simpa using hinv
    have hpre' : ∀ i (h : i < pre.length),
        (parseStockLine (idx + 1 + i) (pre.get ⟨i, h⟩)).isSome = true := by
      intro i h
      have h2 := hpre (i + 1) (by simpa using Nat.succ_lt_succ h)
      rw [show idx + (i + 1) = idx + 1 + i from by omega] at h2
      simpa using h2
    have hbad' : parseStockLine (idx + 1 + pre.length) bad = none := by
      rw [show idx + 1 + pre.length = idx + (l :: pre).length from by
        simp; omega]
      exact hbad
    obtain ⟨ha, hb, hc⟩ := ih (idx + 1) bad rest hpre' hbad'
    refine ⟨?_, ?_, ?_⟩
    · rw [List.cons_append]
      simp only [readStocksAux, hinv', ha]
    · simp only [readStocksAux, hinv']
      exact hb
    · simp only [readStocksAux, hinv', List.length_cons, hc]

/-- C3: `read_stocks` never propagates an exception: a missing file yields
`([], error)`; when every line before a failing line parses, it reports the
failure and returns exactly the holdings built from the lines before the
failing one, with purchase identifier `"S" ++ <1-based line number>`.
`read_bonds` silently skips every line whose comma-separated field count is
not 7 (no error, later lines still processed with their own line numbers)
and aborts the file with an error only on other failures, such as a bad
numeric field in a 7-field line. -/
theorem parser_failure_policy :
    read_stocks none = ([], true) ∧
    read_bonds none = ([], true) ∧
    (∀ (pre : List String) (bad : String) (rest : List String),
      (∀ i (h : i < pre.length),
        (parseStockLine (1 + i) (pre.get ⟨i, h⟩)).isSome = true) →
      parseStockLine (1 + pre.length) bad = none →
      read_stocks (some (pre ++ bad :: rest)) =
        ((read_stocks (some pre)).1, true) ∧
      (read_stocks (some pre)).2 = false ∧
      (read_stocks (some pre)).1.length = pre.length) ∧
    (∀ idx line inv, parseStockLine idx line = some inv →
      inv.purchase_id = "S" ++ toString idx) ∧
    (∀ idx line rest, (splitCommaStr (pyStrip line)).length ≠ 7 →
      readBondsAux idx (line :: rest) = readBondsAux (idx + 1) rest) ∧
    (∀ idx line rest, (splitCommaStr (pyStrip line)).length = 7 →
      parseBondLine idx (splitCommaStr (pyStrip line)) = none →
      readBondsAux idx (line :: rest) = ([], true)) ∧
    (∀ idx line rest b, (splitCommaStr (pyStrip line)).length = 7 →
      parseBondLine idx (splitCommaStr (pyStrip line)) = some b →
      readBondsAux idx (line :: rest) =
        (b :: (readBondsAux (idx + 1) rest).1, (readBondsAux (idx + 1) rest).2)) := by
  refine ⟨rfl, rfl, ?_, ?_, ?_, ?_, ?_⟩
  · intro pre bad rest hpre hbad
    exact readStocksAux_prefix pre 1 bad rest hpre hbad
  · intro idx line inv h
    unfold parseStockLine at h
    split at h
    · unfold mkInvestment at h
      split at h
      · injection h with h
        subst h
        rfl
      · exact Option.noConfusion h
    · exact Option.noConfusion h
  · intro idx line rest h
    simp only [readBondsAux]
    rw [if_neg h]
  · intro idx line rest h7 hparse
    simp only [readBondsAux]
    rw [if_pos h7, hparse]
  · intro idx line rest b h7 hparse
    simp only [readBondsAux]
    rw [if_pos h7, hparse]

theorem parser_failure_policy_witness :
    read_stocks (some (["IBM,10,50,60,8/1/2017"] ++ "oops" :: [])) =
      ((read_stocks (some ["IBM,10,50,60,8/1/2017"])).1, true) ∧
    readBondsAux 1 ("short,line" :: []) = readBondsAux (1 + 1) [] := by
  refine ⟨(parser_failure_policy.2.2.1 ["IBM,10,50,60,8/1/2017"] "oops" [] ?_
    (by decide)).1, parser_failure_policy.2.2.2.2.1 1 "short,line" [] (by decide)⟩
  intro i h
  simp only [List.length_singleton] at h
  have hi : i = 0 := by omega
  subst hi
  show (parseStockLine (1 + 0) "IBM,10,50,60,8/1/2017").isSome = true
  decide

/-- C8 counterexample: a run whose interactive-filter step receives a blank
input line raises an uncaught `IndexError` after the upsert has committed;
`main` has no `finally`/context manager, so `conn.close()` executes zero
times on that exit path — the connection is not closed exactly once on every
exit path. -/
theorem close_skipped_when_filter_crashes :
    (mainRun ⟨[], []⟩ (some []) (some []) [""] 0).2 = 0 ∧
    interactive_portfolio_filter (read_stocks (some [])).1 0 [""] =
      FilterResult.crashed := by
  exact ⟨by decide, by decide⟩

/-- C8 amended: `conn.close()` executes exactly once on runs where the
interactive filter reaches the exit command (the report, CSV and chart steps
catch their own exceptions and cannot skip it), but on any run where the
filter raises — blank input, a `yearly_return` fault while printing, or
end-of-input — the exception propagates out of `main` and the connection is
never closed. -/
theorem close_count_follows_filter (db : DBState)
    (sf bf : Option (List String)) (inputs : List String) (now : ℤ) :
    (interactive_portfolio_filter (read_stocks sf).1 now inputs =
        FilterResult.exited →
      (mainRun db sf bf inputs now).2 = 1) ∧
    (interactive_portfolio_filter (read_stocks sf).1 now inputs =
        FilterResult.crashed →
      (mainRun db sf bf inputs now).2 = 0) := by
  constructor <;> intro h <;> simp [mainRun, h]

theorem close_count_follows_filter_witness :
    interactive_portfolio_filter (read_stocks (some [])).1 0 ["5"] =
      FilterResult.exited ∧
    (mainRun ⟨[], []⟩ (some []) (some []) ["5"] 0).2 = 1 :=
  ⟨by decide,
   (close_count_follows_filter ⟨[], []⟩ (some []) (some []) ["5"] 0).1
     (by decide)⟩

/-- C9 counterexample: the interactive filter does not survive arbitrary
input: a blank or whitespace-only line (which is not an exit command —
`norm` yields no word at all) raises an uncaught `IndexError` in
`norm`'s `[0]` indexing and crashes the loop. -/
theorem filter_crashes_on_wordless_input :
    pyNormWord "" = none ∧
    interactive_portfolio_filter [] 0 [""] = FilterResult.crashed ∧
    interactive_portfolio_filter [] 0 ["   "] = FilterResult.crashed :=
  ⟨by decide, by decide, by decide⟩

/-- Normal termination of the filter loop requires an explicit exit command:
whenever the loop ends in `exited`, some consumed input line's first
normalized word is `5`, `exit` or `quit`. Proved by induction on an input
length bound, since the lookup branch consumes two lines at a time. -/
theorem filter_exit_requires_exit_word (stocks : List Investment) (now : ℤ) :
    ∀ (n : ℕ) (inputs : List String), inputs.length ≤ n →
      interactive_portfolio_filter stocks now inputs = FilterResult.exited →
      ∃ l, l ∈ inputs ∧ ∃ w, pyNormWord l = some w ∧
        (w = "5" ∨ w = "exit" ∨ w = "quit") := by
  intro n
  induction n with
  | zero =>
    intro inputs hlen hex
    have h0 : inputs = [] := List.eq_nil_of_length_eq_zero (Nat.le_zero.mp hlen)
    subst h0
    simp [interactive_portfolio_filter] at hex
  | succ n ih =>
    intro inputs hlen hex
    cases inputs with
    | nil => simp [interactive_portfolio_filter] at hex
    | cons line rest =>
      cases rest with
      | nil =>
        cases hw : pyNormWord line with
        | none => simp [interactive_portfolio_filter, hw] at hex
        | some w =>
          simp only [interactive_portfolio_filter, hw] at hex
          split_ifs at hex
          all_goals
            first
              | exact absurd hex (by decide)
              | exact ⟨line, List.mem_cons_self line _, w, hw,
                  ‹w = "5" ∨ w = "exit" ∨ w = "quit"›⟩
      | cons symLine rest2 =>
        have hlen1 : (symLine :: rest2).length ≤ n := by
          simp only [List.length_cons] at hlen ⊢
          omega
        have hlen2 : rest2.length ≤ n := by
          simp only [List.length_cons] at hlen
          omega
        cases hw : pyNormWord line with
        | none => simp [interactive_portfolio_filter, hw] at hex
        | some w =>
          simp only [interactive_portfolio_filter, hw] at hex
          rcases hfil : stocks.filter (fun s => s.symbol == pyUpper symLine)
            with _ | ⟨s, tl⟩ <;>
            simp only [hfil] at hex <;>
            split_ifs at hex <;>
            first
              | exact absurd hex (by decide)
              | exact ⟨line, List.mem_cons_self line _, w, hw,
                  ‹w = "5" ∨ w = "exit" ∨ w = "quit"›⟩
              | exact (ih (symLine :: rest2) hlen1 hex).elim
                  (fun l hl => ⟨l, List.mem_cons_of_mem _ hl.1, hl.2⟩)
              | exact (ih rest2 hlen2 hex).elim
                  (fun l hl =>
                    ⟨l, List.mem_cons_of_mem _ (List.mem_cons_of_mem _ hl.1),
                      hl.2⟩)

/-- C9 amended: the loop terminates normally only via the explicit exit
branch (first word `5`/`exit`/`quit`), and it is not crash-proof: an input
with no words raises an uncaught `IndexError` in `norm`; exhausted input
raises an uncaught `EOFError` in `input()`; the sort command raises an
uncaught date-parse fault when any stock's `yearly_return` faults; the
lookup command consumes one further input line (crashing at end of input)
and faults the same way on a matched stock whose `yearly_return` faults.
Every other word-bearing input — the earnings listings, a sort over stocks
whose dates all parse, a lookup that finds nothing or a fault-free match,
or an unrecognized input, which reports an error — is handled and the loop
re-prompts. -/
theorem filter_termination_and_crash_modes (stocks : List Investment)
    (now : ℤ) (line : String) (rest : List String) :
    interactive_portfolio_filter stocks now [] = FilterResult.crashed ∧
    (pyNormWord line = none →
      interactive_portfolio_filter stocks now (line :: rest) =
        FilterResult.crashed) ∧
    (∀ w, pyNormWord line = some w → (w = "5" ∨ w = "exit" ∨ w = "quit") →
      interactive_portfolio_filter stocks now (line :: rest) =
        FilterResult.exited) ∧
    (∀ w, pyNormWord line = some w →
      ¬(w = "3" ∨ w = "sort") → ¬(w = "4" ∨ w = "lookup") →
      ¬(w = "5" ∨ w = "exit" ∨ w = "quit") →
      interactive_portfolio_filter stocks now (line :: rest) =
        interactive_portfolio_filter stocks now rest) ∧
    (∀ w, pyNormWord line = some w → (w = "3" ∨ w = "sort") →
      (stocks.all (fun s => (s.yearly_return now).isSome) = true →
        interactive_portfolio_filter stocks now (line :: rest) =
          interactive_portfolio_filter stocks now rest) ∧
      (stocks.all (fun s => (s.yearly_return now).isSome) = false →
        interactive_portfolio_filter stocks now (line :: rest) =
          FilterResult.crashed)) ∧
    (∀ w, pyNormWord line = some w → (w = "4" ∨ w = "lookup") → rest = [] →
      interactive_portfolio_filter stocks now (line :: rest) =
        FilterResult.crashed) ∧
    (∀ w symLine rest2, pyNormWord line = some w → (w = "4" ∨ w = "lookup") →
      rest = symLine :: rest2 →
      (stocks.filter (fun s => s.symbol == pyUpper symLine) = [] →
        interactive_portfolio_filter stocks now (line :: rest) =
          interactive_portfolio_filter stocks now rest2) ∧
      (∀ s tl, stocks.filter (fun s => s.symbol == pyUpper symLine) = s :: tl →
        ((s.yearly_return now).isSome = true →
          interactive_portfolio_filter stocks now (line :: rest) =
            interactive_portfolio_filter stocks now rest2) ∧
        ((s.yearly_return now).isSome = false →
          interactive_portfolio_filter stocks now (line :: rest) =
            FilterResult.crashed))) ∧
    (∀ inputs, interactive_portfolio_filter stocks now inputs =
        FilterResult.exited →
      ∃ l, l ∈ inputs ∧ ∃ w, pyNormWord l = some w ∧
        (w = "5" ∨ w = "exit" ∨ w = "quit")) := by
  refine ⟨rfl, ?_, ?_, ?_, ?_, ?_, ?_, ?_⟩
  · intro h
    cases rest <;> simp [interactive_portfolio_filter, h]
  · intro w hw hexit
    rcases hexit with rfl | rfl | rfl <;> cases rest <;>
      simp [interactive_portfolio_filter, hw]
  · intro w hw h3 h4 h5
    cases rest with
    | nil =>
      simp only [interactive_portfolio_filter, hw]
      simp only [h3, h4, h5, if_false]
      split_ifs <;> rfl
    | cons symLine rest2 =>
      simp only [interactive_portfolio_filter, hw]
      simp only [h3, h4, h5, if_false]
      split_ifs <;> rfl
  · intro w hw hsort
    constructor <;> intro hall <;> rcases hsort with rfl | rfl <;>
      cases rest <;> simp [interactive_portfolio_filter, hw, hall]
  · intro w hw hlk hrest
    subst hrest
    rcases hlk with rfl | rfl <;> simp [interactive_portfolio_filter, hw]
  · intro w symLine rest2 hw hlk hrest
    subst hrest
    constructor
    · intro hfil
      rcases hlk with rfl | rfl <;>
        simp [interactive_portfolio_filter, hw, hfil]
    · intro s tl hfil
      constructor <;> intro hys <;> rcases hlk with rfl | rfl <;>
        simp [interactive_portfolio_filter, hw, hfil, hys]
  · intro inputs hex
    exact filter_exit_requires_exit_word stocks now inputs.length inputs
      le_rfl hex

theorem filter_termination_and_crash_modes_witness :
    pyNormWord "hello" = some "hello" ∧
    interactive_portfolio_filter [] 0 ["hello"] =
      interactive_portfolio_filter [] 0 [] ∧
    interactive_portfolio_filter [] 0 ["exit"] = FilterResult.exited ∧
    interactive_portfolio_filter [badDateInv] 0 ["3"] =
      FilterResult.crashed :=
  ⟨by decide,
   (filter_termination_and_crash_modes [] 0 "hello" []).2.2.2.1 "hello"
     (by decide) (by decide) (by decide) (by decide),
   (filter_termination_and_crash_modes [] 0 "exit" []).2.2.1 "exit"
     (by decide) (by decide),
   ((filter_termination_and_crash_modes [badDateInv] 0 "3" []).2.2.2.2.1 "3"
     (by decide) (by decide)).2 (by decide)⟩
